import Mathlib

/-!
Shallow embedding of `embedded-simple-ui` (src/led.rs and src/switch.rs).

Modelling conventions:
* The clock's instants (`Instant<C>`) and millisecond durations
  (`Milliseconds<C::T>`) are embedded as `Nat`, with the clock ticking in
  milliseconds, so `Milliseconds::try_from` on a computed duration is the
  identity and never fails.
* A Rust computation that can `panic` (an `.unwrap()` of a failed pin
  operation or of a failed checked duration) is embedded in `PanicOr`:
  `PanicOr.panic` is a Rust panic, `PanicOr.ok` a normal return.
* A hardware pin is a record of its driven `level` (`true` = high) and a
  `fails` flag; when `fails` is set every pin operation returns its error,
  which the source code immediately `.unwrap()`s into a panic.
* The switch's input sampling is passed to `PinSwitch.poll` as the raw
  sampled boolean `level` together with the polarity policy (the
  `PressedState` strategy type of the source).
-/

/-- Outcome of running Rust code that may panic via `.unwrap()`. -/
inductive PanicOr (α : Type) : Type
  | panic : PanicOr α
  | ok : α → PanicOr α
  deriving DecidableEq, Repr

/-- Embeds `Instant::checked_duration_since` followed by the (in the
millisecond model lossless) `Milliseconds::try_from`: `none` when `now`
does not follow `ref` (clock non-monotonicity). -/
def checked_duration_since (now ref : Nat) : Option Nat :=
  if ref ≤ now then some (now - ref) else none

/-- Embeds `embedded_hal::digital` pin state: driven `level` (`true` = high)
plus a fault model (`fails` = every hardware access errors). -/
structure Pin where
  level : Bool
  fails : Bool
  deriving DecidableEq, Repr

/-- Embeds `pin.set_state(s).unwrap()`. -/
def Pin.set_state (p : Pin) (lvl : Bool) : PanicOr Pin :=
  if p.fails then .panic else .ok { p with level := lvl }

/-- Embeds `pin.set_high().unwrap()`. -/
def Pin.set_high (p : Pin) : PanicOr Pin :=
  p.set_state true

/-- Embeds `pin.set_low().unwrap()`. -/
def Pin.set_low (p : Pin) : PanicOr Pin :=
  p.set_state false

/-- Embeds `pin.is_set_low().unwrap()`. -/
def Pin.is_set_low (p : Pin) : PanicOr Bool :=
  if p.fails then .panic else .ok (p.level = false)

/-- Embeds `effects::EffectType` (led.rs): `Pulse(Milliseconds)` or
`Blink(Hertz)`. -/
inductive EffectType : Type
  | pulse (dur : Nat)
  | blink (rate : Nat)
  deriving DecidableEq, Repr

/-- Embeds `rate.to_duration::<Milliseconds<C::T>>().unwrap()` of
embedded_time: the period of a `rate` Hz signal in whole milliseconds,
truncating the fractional remainder; the conversion fails (and the
source's `.unwrap()` panics) for a zero rate. -/
def to_duration_ms (rate : Nat) : PanicOr Nat :=
  if rate = 0 then .panic else .ok (1000 / rate)

/-- Embeds `effects::LedEffect` (led.rs). -/
structure LedEffect where
  current_cycle_started_at : Option Nat
  started_at : Option Nat
  duration : Option Nat
  fx_type : EffectType
  deriving DecidableEq, Repr

/-- Embeds `LedEffect::new`. -/
def LedEffect.new (fx : EffectType) : LedEffect :=
  { current_cycle_started_at := none, started_at := none,
    duration := none, fx_type := fx }

/-- Embeds `LedEffect::has_started`. -/
def LedEffect.has_started (e : LedEffect) : Bool :=
  e.started_at.isSome

/-- Embeds `LedEffect::set_started_at` (sets both `started_at` and
`current_cycle_started_at`). -/
def LedEffect.set_started_at (e : LedEffect) (now : Nat) : LedEffect :=
  { e with started_at := some now, current_cycle_started_at := some now }

/-- Embeds `LedEffect::get_duration`. -/
def LedEffect.get_duration (e : LedEffect) : Option Nat :=
  e.duration

/-- Embeds `LedEffect::set_duration`. -/
def LedEffect.set_duration (e : LedEffect) (d : Nat) : LedEffect :=
  { e with duration := some d }

/-- Embeds `LedEffect::time_elapsed`. -/
def LedEffect.time_elapsed (e : LedEffect) (now : Nat) : Option Nat :=
  match e.started_at with
  | some t => checked_duration_since now t
  | none => none

/-- Embeds `LedEffect::current_cycle_duration`. -/
def LedEffect.current_cycle_duration (e : LedEffect) (now : Nat) : Option Nat :=
  match e.current_cycle_started_at with
  | some t => checked_duration_since now t
  | none => none

/-- Embeds `LedEffect::start_new_cycle`. -/
def LedEffect.start_new_cycle (e : LedEffect) (now : Nat) : LedEffect :=
  { e with current_cycle_started_at := some now }

/-- Embeds `PinLed` (led.rs). -/
structure PinLed where
  pin : Pin
  effect : Option LedEffect
  is_on : Bool
  deriving DecidableEq, Repr

/-- Embeds `PinLed::clear_effect` (`self.effect = None; self.turn_off()`). -/
def PinLed.clear_effect (l : PinLed) : PinLed :=
  { l with effect := none, is_on := false }

/-- Embeds `PinLed::poll` (led.rs lines 219-285). The effect arm first
checks total-duration expiry, then runs the `EffectType` match which
drives the pin and yields the `clear_effect` flag and the (possibly
cycle-restarted) effect, then performs the `clear_effect` early return
and finally the not-yet-started `set_started_at` bookkeeping, exactly in
the source's order. -/
def PinLed.poll (l : PinLed) (now : Nat) : PanicOr PinLed :=
  match l.effect with
  | some fx =>
    let elapsed := fx.time_elapsed now
    let expired : Bool :=
      match fx.get_duration, elapsed with
      | some fx_dur, some e => decide (fx_dur < e)
      | _, _ => false
    if expired then
      match (l.clear_effect).pin.set_low with
      | .panic => .panic
      | .ok p => .ok { l.clear_effect with pin := p }
    else
      let step : PanicOr (Pin × Bool × LedEffect) :=
        match fx.fx_type with
        | .pulse dur =>
          match fx.current_cycle_duration now with
          | some current_dur =>
            if dur < current_dur then
              match l.pin.set_low with
              | .panic => .panic
              | .ok p => .ok (p, true, fx)
            else if fx.has_started = false then
              match l.pin.set_high with
              | .panic => .panic
              | .ok p => .ok (p, false, fx)
            else
              .ok (l.pin, false, fx)
          | none => .ok (l.pin, false, fx)
        | .blink rate =>
          match fx.current_cycle_duration now with
          | some current_dur =>
            match to_duration_ms rate with
            | .panic => .panic
            | .ok period =>
              if period < current_dur then
                match l.pin.is_set_low with
                | .panic => .panic
                | .ok low =>
                  match (if low then l.pin.set_high else l.pin.set_low) with
                  | .panic => .panic
                  | .ok p => .ok (p, false, fx.start_new_cycle now)
              else
                .ok (l.pin, false, fx)
          | none => .ok (l.pin, false, fx)
      match step with
      | .panic => .panic
      | .ok (p, clear_fx, fx1) =>
        if clear_fx then
          .ok (PinLed.clear_effect { l with pin := p })
        else if fx1.has_started = false then
          .ok { l with pin := p, effect := some (fx1.set_started_at now) }
        else
          .ok { l with pin := p, effect := some fx1 }
  | none =>
    match l.pin.set_state (match l.is_on with | false => true | true => false) with
    | .panic => .panic
    | .ok p => .ok { l with pin := p }

/-- Embeds the `switch_state::PressedState` polarity strategy types. -/
inductive Polarity : Type
  | pressedOnHigh
  | pressedOnLow
  deriving DecidableEq, Repr

/-- Embeds `S::get_pressed_state(pin)` on the raw sampled level. -/
def get_pressed_state (pol : Polarity) (level : Bool) : Bool :=
  match pol with
  | .pressedOnHigh => level
  | .pressedOnLow => !level

/-- Embeds `PinSwitch` (switch.rs). -/
structure PinSwitch where
  is_pressed : Bool
  has_changed : Bool
  last_change_at : Nat
  prev_state_lasted : Nat
  deriving DecidableEq, Repr

/-- Embeds `PinSwitch::new` / the zeroed initial state. -/
def PinSwitch.new : PinSwitch :=
  { is_pressed := false, has_changed := false,
    last_change_at := 0, prev_state_lasted := 0 }

/-- Embeds `PinSwitch::current_state`
(`now.checked_duration_since(&self.last_change_at).unwrap().try_into().unwrap()`):
panics when `now` precedes `last_change_at`. -/
def PinSwitch.current_state (s : PinSwitch) (now : Nat) : PanicOr Nat :=
  match checked_duration_since now s.last_change_at with
  | some d => .ok d
  | none => .panic

/-- Embeds `PinSwitch::poll` (switch.rs lines 125-137), with the raw
sampled pin level passed in. -/
def PinSwitch.poll (pol : Polarity) (s : PinSwitch) (level : Bool) (now : Nat) :
    PanicOr PinSwitch :=
  let new_state := get_pressed_state pol level
  if new_state = s.is_pressed then
    .ok { s with has_changed := false }
  else
    match s.current_state now with
    | .panic => .panic
    | .ok d =>
      .ok { is_pressed := new_state, has_changed := true,
            prev_state_lasted := d, last_change_at := now }

/-- Embeds `PinSwitch::pressed_for`. -/
def PinSwitch.pressed_for (s : PinSwitch) : Option Nat :=
  if s.is_pressed = false then some s.prev_state_lasted else none

/-- Embeds `PinSwitch::released_for`. -/
def PinSwitch.released_for (s : PinSwitch) : Option Nat :=
  if s.is_pressed = true then some s.prev_state_lasted else none

/-- Embeds `PinSwitch::prev_state_lasted_for`. -/
def PinSwitch.prev_state_lasted_for (s : PinSwitch) : Nat :=
  s.prev_state_lasted

/-! ## Theorems -/

/-- C1: the claim says a `Pulse(d)` effect with no total-duration limit
drives the output on at the first processing poll, so that polls at `t0`
and `t0 + d - 1` observe the output on, and a poll at `t0 + d + 1`
observes it off with the effect cleared. On the code, the output is never
driven on: with `Pulse(5)` installed on a low pin, the poll at `t0 = 0`
only records the start (`started_at = cycle_started_at = 0`) and leaves
the pin low — `current_cycle_duration` is `None` before `set_started_at`
runs, so the whole `Pulse` match arm (including its `set_high`) is
skipped, and on every later poll `has_started()` is already true, making
the `set_high` branch unreachable. The poll at `t = 4 = d - 1` still
observes the pin low, contradicting the claim; the poll at `t = 6 = d + 1`
clears the effect with the pin low, as claimed. -/
theorem C1_pulse_first_poll_does_not_drive_on :
    PinLed.poll { pin := { level := false, fails := false },
                  effect := some (LedEffect.new (.pulse 5)), is_on := false } 0
      = .ok { pin := { level := false, fails := false },
              effect := some { current_cycle_started_at := some 0, started_at := some 0,
                               duration := none, fx_type := .pulse 5 },
              is_on := false }
    ∧ PinLed.poll { pin := { level := false, fails := false },
                    effect := some { current_cycle_started_at := some 0, started_at := some 0,
                                     duration := none, fx_type := .pulse 5 },
                    is_on := false } 4
      = .ok { pin := { level := false, fails := false },
              effect := some { current_cycle_started_at := some 0, started_at := some 0,
                               duration := none, fx_type := .pulse 5 },
              is_on := false }
    ∧ PinLed.poll { pin := { level := false, fails := false },
                    effect := some { current_cycle_started_at := some 0, started_at := some 0,
                                     duration := none, fx_type := .pulse 5 },
                    is_on := false } 6
      = .ok { pin := { level := false, fails := false }, effect := none, is_on := false } := by
  refine ⟨?_, ?_, ?_⟩ <;> decide

/-- C2: the claim says that with no effect installed, `poll` drives the
pin to a level equal to `logical_on`. On the code the mapping is
inverted: `is_on = true` drives the pin low and `is_on = false` drives it
high (`false => PinState::High, true => PinState::Low` in the source),
which also contradicts the high-is-on convention the effect branches use
(`set_high` to begin a pulse's on-phase, `set_low` to end it). -/
theorem C2_no_effect_drive_is_inverted :
    PinLed.poll { pin := { level := false, fails := false },
                  effect := none, is_on := true } 0
      = .ok { pin := { level := false, fails := false }, effect := none, is_on := true }
    ∧ PinLed.poll { pin := { level := false, fails := false },
                    effect := none, is_on := false } 0
      = .ok { pin := { level := true, fails := false }, effect := none, is_on := false } := by
  refine ⟨?_, ?_⟩ <;> decide

/-- C3 counterexample: the claim says every duration-computing query —
including the switch's `current_state` — yields an absent optional result
on a non-monotonic timestamp and never crashes. On the code,
`PinSwitch::current_state` unwraps the failed checked subtraction: with
`last_change_at = 10`, querying at `now = 5` panics (its return type is a
plain duration, not an optional). -/
theorem C3_counterexample_current_state_panics :
    PinSwitch.current_state
      { is_pressed := false, has_changed := false,
        last_change_at := 10, prev_state_lasted := 0 } 5
      = PanicOr.panic := by
  decide

/-- C3 amended: the effect's `time_elapsed` and `current_cycle_duration`
do yield `none` (an absent optional result, no panic) whenever the
supplied `now` precedes the stored reference timestamp; the switch's
`current_state`, by contrast, panics on such input (it unwraps the failed
checked subtraction) rather than returning an absent result. -/
theorem C3_amended_nonmonotonic_duration_queries :
    (∀ (e : LedEffect) (t now : Nat), e.started_at = some t → now < t →
      e.time_elapsed now = none)
    ∧ (∀ (e : LedEffect) (t now : Nat), e.current_cycle_started_at = some t → now < t →
      e.current_cycle_duration now = none)
    ∧ (∀ (s : PinSwitch) (now : Nat), now < s.last_change_at →
      s.current_state now = PanicOr.panic) := by
  refine ⟨?_, ?_, ?_⟩
  · intro e t now ht h
    simp [LedEffect.time_elapsed, ht, checked_duration_since, Nat.not_le.mpr h]
  · intro e t now ht h
    simp [LedEffect.current_cycle_duration, ht, checked_duration_since, Nat.not_le.mpr h]
  · intro s now h
    simp [PinSwitch.current_state, checked_duration_since, Nat.not_le.mpr h]

/-- C3 witness: the amended statement instantiated at concrete inputs. -/
theorem C3_amended_witness :
    LedEffect.time_elapsed
      { current_cycle_started_at := some 9, started_at := some 9,
        duration := none, fx_type := .pulse 5 } 3 = none
    ∧ LedEffect.current_cycle_duration
      { current_cycle_started_at := some 9, started_at := some 9,
        duration := none, fx_type := .pulse 5 } 3 = none
    ∧ PinSwitch.current_state
      { is_pressed := true, has_changed := false,
        last_change_at := 7, prev_state_lasted := 0 } 2 = PanicOr.panic :=
  ⟨C3_amended_nonmonotonic_duration_queries.1 _ 9 3 rfl (by decide),
   C3_amended_nonmonotonic_duration_queries.2.1 _ 9 3 rfl (by decide),
   C3_amended_nonmonotonic_duration_queries.2.2 _ 2 (by decide)⟩

/-- C4: for every effect of any kind whose `total_duration` is set to `D`
and which has started, a `poll(now)` with `time_elapsed(now) > D` clears
the effect, forces the output off, and returns without running the
pulse/blink branch (the resulting state is exactly the cleared one with
the pin driven low). -/
theorem C4_total_duration_expiry (l : PinLed) (fx : LedEffect) (now D e : Nat)
    (hfx : l.effect = some fx) (hd : fx.get_duration = some D)
    (he : fx.time_elapsed now = some e) (hgt : D < e)
    (hok : l.pin.fails = false) :
    PinLed.poll l now
      = .ok { pin := { level := false, fails := false },
              effect := none, is_on := false } := by
  unfold PinLed.poll
  rw [hfx]
  simp only [hd, he]
  simp [hgt, PinLed.clear_effect, Pin.set_low, Pin.set_state, hok]

/-- C4 witness: a started `Blink(10 Hz)` effect with `total_duration = 7`,
polled at `now = 8` (elapsed `8 > 7`), is cleared mid-cycle with the pin
forced low. -/
theorem C4_witness :
    PinLed.poll
      { pin := { level := true, fails := false },
        effect := some { current_cycle_started_at := some 0, started_at := some 0,
                         duration := some 7, fx_type := .blink 10 },
        is_on := true } 8
      = .ok { pin := { level := false, fails := false },
              effect := none, is_on := false } :=
  C4_total_duration_expiry _ _ 8 7 8 rfl rfl rfl (by decide) rfl

/-- C5: for a `Blink(f)` effect, with the period equal to the truncated
integer conversion of `1/f` into milliseconds (`1000 / f`): (a) on a poll
where the effect has started and the current cycle's elapsed time is
strictly greater than the period, the driven level is toggled and a new
cycle starts at `now`; (b) on the first poll that processes the effect
(no started/cycle timestamp yet), the effect is only marked started
(`started_at = cycle_started_at = now`) and the pin is untouched. -/
theorem C5_blink_toggle_and_first_poll :
    (∀ (l : PinLed) (fx : LedEffect) (f c t now : Nat),
      l.effect = some fx → fx.fx_type = .blink f → fx.duration = none →
      fx.current_cycle_started_at = some c → fx.started_at = some t →
      f ≠ 0 → c ≤ now → 1000 / f < now - c → l.pin.fails = false →
      PinLed.poll l now
        = .ok { pin := { level := !l.pin.level, fails := false },
                effect := some (fx.start_new_cycle now), is_on := l.is_on })
    ∧ (∀ (l : PinLed) (fx : LedEffect) (f now : Nat),
      l.effect = some fx → fx.fx_type = .blink f →
      fx.started_at = none → fx.current_cycle_started_at = none →
      PinLed.poll l now = .ok { l with effect := some (fx.set_started_at now) }) := by
  constructor
  · intro l fx f c t now hfx hty hdur hc hst hf hle hlt hok
    unfold PinLed.poll
    rw [hfx]
    simp only [LedEffect.get_duration, hdur, hty, LedEffect.current_cycle_duration, hc,
      checked_duration_since, hle, if_pos, to_duration_ms, hf, if_neg, hlt, if_true,
      LedEffect.time_elapsed, hst]
    simp only [Pin.is_set_low, hok, Bool.false_eq_true, if_false, Pin.set_high, Pin.set_low,
      Pin.set_state, hlt, if_true]
    cases hlvl : l.pin.level <;>
      simp [hlvl, hok, LedEffect.has_started, LedEffect.start_new_cycle, hst]
  · intro l fx f now hfx hty hst hc
    unfold PinLed.poll
    rw [hfx]
    rcases hdd : fx.duration with _ | d <;>
      simp [LedEffect.get_duration, hdd, LedEffect.time_elapsed, hst, hty,
        LedEffect.current_cycle_duration, hc, LedEffect.has_started]

/-- C5 witness: part (a) at a `Blink(10 Hz)` effect started at 0, cycle
started at 0, polled at `now = 150` (`150 > 100`): the low pin toggles
high and the cycle restarts at 150; part (b) at a freshly installed
`Blink(10 Hz)` effect polled at `now = 0`: only the start timestamps are
recorded. -/
theorem C5_witness :
    PinLed.poll
      { pin := { level := false, fails := false },
        effect := some { current_cycle_started_at := some 0, started_at := some 0,
                         duration := none, fx_type := .blink 10 },
        is_on := false } 150
      = .ok { pin := { level := true, fails := false },
              effect := some { current_cycle_started_at := some 150, started_at := some 0,
                               duration := none, fx_type := .blink 10 },
              is_on := false }
    ∧ PinLed.poll
      { pin := { level := false, fails := false },
        effect := some (LedEffect.new (.blink 10)), is_on := false } 0
      = .ok { pin := { level := false, fails := false },
              effect := some { current_cycle_started_at := some 0, started_at := some 0,
                               duration := none, fx_type := .blink 10 },
              is_on := false } :=
  ⟨C5_blink_toggle_and_first_poll.1 _
      { current_cycle_started_at := some 0, started_at := some 0,
        duration := none, fx_type := .blink 10 } 10 0 0 150 rfl rfl rfl rfl rfl
      (by decide) (by decide) (by decide) rfl,
   C5_blink_toggle_and_first_poll.2 _ (LedEffect.new (.blink 10)) 10 0 rfl rfl rfl rfl⟩

/-- C6: on a switch poll where the sampled level mapped through the
polarity policy differs from the stored `is_pressed`, the poll stores
`prev_state_duration = now - last_change_at`, updates `is_pressed` to the
new logical level, sets `last_change_at = now` and sets the changed flag. -/
theorem C6_switch_transition_updates (pol : Polarity) (s : PinSwitch) (lvl : Bool)
    (now : Nat) (hne : get_pressed_state pol lvl ≠ s.is_pressed)
    (hm : s.last_change_at ≤ now) :
    PinSwitch.poll pol s lvl now
      = .ok { is_pressed := get_pressed_state pol lvl, has_changed := true,
              last_change_at := now,
              prev_state_lasted := now - s.last_change_at } := by
  simp [PinSwitch.poll, hne, PinSwitch.current_state, checked_duration_since, hm]

/-- C6 witness: the spec's concrete scenario — a pressed-on-high switch,
pressed since `last_change_at = 0`, sampling low at `now = 120`: after
the poll, `is_pressed = false`, `has_changed = true`,
`prev_state_duration = 120`, `last_change_at = 120`. -/
theorem C6_witness :
    PinSwitch.poll .pressedOnHigh
      { is_pressed := true, has_changed := false,
        last_change_at := 0, prev_state_lasted := 0 } false 120
      = .ok { is_pressed := false, has_changed := true,
              last_change_at := 120, prev_state_lasted := 120 } :=
  C6_switch_transition_updates .pressedOnHigh _ false 120 (by decide) (by decide)

/-- C7: on a switch poll where the sampled logical level equals the
stored `is_pressed`, the poll only lowers the changed flag:
`is_pressed`, `last_change_at` and `prev_state_duration` are unchanged
and `has_changed()` is false afterwards. -/
theorem C7_switch_unchanged_frame (pol : Polarity) (s : PinSwitch) (lvl : Bool)
    (now : Nat) (heq : get_pressed_state pol lvl = s.is_pressed) :
    PinSwitch.poll pol s lvl now = .ok { s with has_changed := false } := by
  simp [PinSwitch.poll, heq]

/-- C7 witness: the spec's concrete scenario continued — the released
switch sampling low again at `now = 300`: only the changed flag is
lowered, the other fields keep their values from the transition at 120. -/
theorem C7_witness :
    PinSwitch.poll .pressedOnHigh
      { is_pressed := false, has_changed := true,
        last_change_at := 120, prev_state_lasted := 120 } false 300
      = .ok { is_pressed := false, has_changed := false,
              last_change_at := 120, prev_state_lasted := 120 } :=
  C7_switch_unchanged_frame .pressedOnHigh _ false 300 (by decide)

/-- C8: `pressed_for()` returns no value when the switch is currently
pressed and the recorded previous-state duration (`prev_state_duration`)
when currently released; `released_for()` is the exact mirror; and after
a poll at `t1` that transitions from pressed (since `t0 = last_change_at`)
to released, `pressed_for()` returns `t1 - t0` and `released_for()`
returns no value. -/
theorem C8_pressed_for_released_for :
    (∀ s : PinSwitch, s.is_pressed = true →
      s.pressed_for = none ∧ s.released_for = some s.prev_state_lasted)
    ∧ (∀ s : PinSwitch, s.is_pressed = false →
      s.pressed_for = some s.prev_state_lasted ∧ s.released_for = none)
    ∧ (∀ (pol : Polarity) (s : PinSwitch) (lvl : Bool) (t1 : Nat) (s' : PinSwitch),
      s.is_pressed = true → get_pressed_state pol lvl = false →
      s.last_change_at ≤ t1 →
      PinSwitch.poll pol s lvl t1 = .ok s' →
      s'.pressed_for = some (t1 - s.last_change_at) ∧ s'.released_for = none) := by
  refine ⟨?_, ?_, ?_⟩
  · intro s h
    simp [PinSwitch.pressed_for, PinSwitch.released_for, h]
  · intro s h
    simp [PinSwitch.pressed_for, PinSwitch.released_for, h]
  · intro pol s lvl t1 s' hp hlow hm hpoll
    rw [PinSwitch.poll] at hpoll
    simp only [hlow, hp, PinSwitch.current_state, checked_duration_since, hm, if_pos,
      Bool.false_eq_true] at hpoll
    simp only [if_false] at hpoll
    cases hpoll
    simp [PinSwitch.pressed_for, PinSwitch.released_for]

/-- C8 witness: the state queries at a pressed state and a released
state, and the transition scenario at `t0 = 0`, `t1 = 120`. -/
theorem C8_witness :
    PinSwitch.pressed_for
      { is_pressed := true, has_changed := false,
        last_change_at := 3, prev_state_lasted := 9 } = none
    ∧ PinSwitch.released_for
      { is_pressed := true, has_changed := false,
        last_change_at := 3, prev_state_lasted := 9 } = some 9
    ∧ PinSwitch.pressed_for
      { is_pressed := false, has_changed := false,
        last_change_at := 3, prev_state_lasted := 9 } = some 9
    ∧ PinSwitch.released_for
      { is_pressed := false, has_changed := false,
        last_change_at := 3, prev_state_lasted := 9 } = none
    ∧ PinSwitch.pressed_for
        { is_pressed := false, has_changed := true,
          last_change_at := 120, prev_state_lasted := 120 } = some 120
    ∧ PinSwitch.released_for
        { is_pressed := false, has_changed := true,
          last_change_at := 120, prev_state_lasted := 120 } = none :=
  ⟨(C8_pressed_for_released_for.1 _ rfl).1,
   (C8_pressed_for_released_for.1 _ rfl).2,
   (C8_pressed_for_released_for.2.1 _ rfl).1,
   (C8_pressed_for_released_for.2.1 _ rfl).2,
   (C8_pressed_for_released_for.2.2 .pressedOnHigh
      { is_pressed := true, has_changed := false,
        last_change_at := 0, prev_state_lasted := 0 } false 120 _
      rfl rfl (by decide) rfl).1,
   (C8_pressed_for_released_for.2.2 .pressedOnHigh
      { is_pressed := true, has_changed := false,
        last_change_at := 0, prev_state_lasted := 0 } false 120 _
      rfl rfl (by decide) rfl).2⟩

/-- C9 counterexample: the claim says a failure of the output device's
drive operation is propagated out of `poll` as an `OutputFault` error
result. On the code, `poll` returns no value at all (`fn poll(&mut self,
now: Instant<C>)`) and every pin operation's error is immediately
`.unwrap()`ed: with a faulting pin and no effect installed, the poll at
`now = 0` panics instead of returning any error value. -/
theorem C9_counterexample_drive_fault_panics :
    PinLed.poll { pin := { level := false, fails := true },
                  effect := none, is_on := false } 0
      = PanicOr.panic := by
  decide

/-- C9 amended: a drive failure is never silently swallowed, but it is
not propagated as an `OutputFault` error result either — `poll` panics on
it (the source unwraps the pin result and returns unit). Shown for the
no-effect drive and for the total-duration-expiry drive. -/
theorem C9_amended_drive_fault_panics :
    (∀ (l : PinLed) (now : Nat), l.effect = none → l.pin.fails = true →
      PinLed.poll l now = PanicOr.panic)
    ∧ (∀ (l : PinLed) (fx : LedEffect) (now D e : Nat),
      l.effect = some fx → fx.get_duration = some D →
      fx.time_elapsed now = some e → D < e → l.pin.fails = true →
      PinLed.poll l now = PanicOr.panic) := by
  constructor
  · intro l now hfx hfl
    unfold PinLed.poll
    rw [hfx]
    simp [Pin.set_state, hfl]
  · intro l fx now D e hfx hd he hgt hfl
    unfold PinLed.poll
    rw [hfx]
    simp only [hd, he]
    simp [hgt, PinLed.clear_effect, Pin.set_low, Pin.set_state, hfl]

/-- C9 witness: the amended statement instantiated at a faulting pin with
no effect (poll at 3) and at a faulting pin with an expired
total-duration `Pulse(5)` effect (duration 2, started at 0, poll at 4). -/
theorem C9_witness :
    PinLed.poll { pin := { level := true, fails := true },
                  effect := none, is_on := true } 3 = PanicOr.panic
    ∧ PinLed.poll
      { pin := { level := true, fails := true },
        effect := some { current_cycle_started_at := some 0, started_at := some 0,
                         duration := some 2, fx_type := .pulse 5 },
        is_on := true } 4 = PanicOr.panic :=
  ⟨C9_amended_drive_fault_panics.1 _ 3 rfl rfl,
   C9_amended_drive_fault_panics.2 _
      { current_cycle_started_at := some 0, started_at := some 0,
        duration := some 2, fx_type := .pulse 5 } 4 2 4 rfl rfl rfl (by decide) rfl⟩

/-- C10: with an effect installed, a non-panicking `poll(now)` leaves the
`is_on` (`logical_on`) field unchanged whenever it keeps an effect
installed, and sets it to `false` whenever it clears the effect during
that poll (total-duration expiry or pulse completion) — a manually set
logical on/off state is never silently altered by a running,
non-expiring effect. -/
theorem C10_poll_preserves_is_on (l : PinLed) (now : Nat) (fx : LedEffect)
    (l' : PinLed) (hfx : l.effect = some fx)
    (h : PinLed.poll l now = PanicOr.ok l') :
    (l'.effect.isSome = true → l'.is_on = l.is_on)
    ∧ (l'.effect = none → l'.is_on = false) := by
  unfold PinLed.poll at h
  rw [hfx] at h
  dsimp only at h
  repeat' split at h
  all_goals cases h <;> simp_all [PinLed.clear_effect]

/-- C10 witness: a started `Blink(10 Hz)` effect mid-cycle (cycle started
at 0, poll at 50, no toggle due) keeps the effect installed and leaves
`is_on = true` untouched. -/
theorem C10_witness :
    ((some { current_cycle_started_at := some 0, started_at := some 0,
             duration := none, fx_type := .blink 10 } : Option LedEffect).isSome = true
      → (true : Bool) = true)
    ∧ ((some { current_cycle_started_at := some 0, started_at := some 0,
               duration := none, fx_type := .blink 10 } : Option LedEffect) = none
      → (true : Bool) = false) :=
  C10_poll_preserves_is_on
    { pin := { level := false, fails := false },
      effect := some { current_cycle_started_at := some 0, started_at := some 0,
                       duration := none, fx_type := .blink 10 },
      is_on := true } 50
    { current_cycle_started_at := some 0, started_at := some 0,
      duration := none, fx_type := .blink 10 }
    { pin := { level := false, fails := false },
      effect := some { current_cycle_started_at := some 0, started_at := some 0,
                       duration := none, fx_type := .blink 10 },
      is_on := true } rfl (by decide)
